import Mathlib

/-!
Shallow embedding of `scripts/verify_cross_contract_invariants.py`:
a remittance splitter dividing an integer amount among four buckets
(spending, savings, bills, insurance) by fixed integer percentages, and
a tracker accumulating the results.  Python integers are arbitrary
precision, so they are modelled by `Int`; Python's `//` is floor
division, modelled by `Int.fdiv`; `raise ValueError(msg)` is modelled
by `Except.error (PyError.valueError msg)`.
-/

/-- The `SplitConfig` dataclass: four integer percentages. -/
structure SplitConfig where
  spending_percent : Int
  savings_percent : Int
  bills_percent : Int
  insurance_percent : Int
deriving DecidableEq, Repr

/-- Method `SplitConfig.validate`: percentages sum to 100. -/
def SplitConfig.validate (c : SplitConfig) : Bool :=
  (c.spending_percent + c.savings_percent +
    c.bills_percent + c.insurance_percent) == 100

/-- The `AllocationResult` dataclass. -/
structure AllocationResult where
  total : Int
  spending : Int
  savings : Int
  bills : Int
  insurance : Int
deriving DecidableEq, Repr

/-- Method `AllocationResult.sum_allocations`. -/
def AllocationResult.sum_allocations (r : AllocationResult) : Int :=
  r.spending + r.savings + r.bills + r.insurance

/-- Method `AllocationResult.is_consistent`: allocations sum to total. -/
def AllocationResult.is_consistent (r : AllocationResult) : Bool :=
  r.sum_allocations == r.total

/-- Python exceptions raised by the script: only `ValueError msg`. -/
inductive PyError where
  | valueError (msg : String)
deriving DecidableEq, Repr

/-- The `RemittanceSplitter` class: holds a validated config. -/
structure RemittanceSplitter where
  config : SplitConfig
deriving DecidableEq, Repr

/-- Constructor `RemittanceSplitter.__init__`: rejects configs whose percentages do
not sum to 100 with `ValueError("Split percentages must sum to 100")`. -/
def RemittanceSplitter.init (config : SplitConfig) :
    Except PyError RemittanceSplitter :=
  if !config.validate then
    Except.error (PyError.valueError "Split percentages must sum to 100")
  else
    Except.ok ⟨config⟩

/-- Method `RemittanceSplitter.calculate_split`: floor-divide the first three
buckets, give insurance the residual; non-positive amounts raise
`ValueError("Total amount must be positive")`. -/
def RemittanceSplitter.calculate_split (s : RemittanceSplitter)
    (total_amount : Int) : Except PyError AllocationResult :=
  if total_amount ≤ 0 then
    Except.error (PyError.valueError "Total amount must be positive")
  else
    let spending := Int.fdiv (total_amount * s.config.spending_percent) 100
    let savings := Int.fdiv (total_amount * s.config.savings_percent) 100
    let bills := Int.fdiv (total_amount * s.config.bills_percent) 100
    let insurance := total_amount - spending - savings - bills
    Except.ok ⟨total_amount, spending, savings, bills, insurance⟩

/-- The `ContractTracker` class: four running totals, all starting at 0
in `__init__` (modelled by `ContractTracker.initState`). -/
structure ContractTracker where
  savings_total : Int
  bills_total : Int
  insurance_total : Int
  spending_total : Int
deriving DecidableEq, Repr

/-- Constructor `ContractTracker.__init__`: all four totals start at 0. -/
def ContractTracker.initState : ContractTracker :=
  ⟨0, 0, 0, 0⟩

/-- Method `ContractTracker.allocate`: add each field of the result to the
corresponding running total. -/
def ContractTracker.allocate (t : ContractTracker) (r : AllocationResult) :
    ContractTracker :=
  { t with
    spending_total := t.spending_total + r.spending
    savings_total := t.savings_total + r.savings
    bills_total := t.bills_total + r.bills
    insurance_total := t.insurance_total + r.insurance }

/-- Method `ContractTracker.get_total_allocated`: sum of all four totals. -/
def ContractTracker.get_total_allocated (t : ContractTracker) : Int :=
  t.spending_total + t.savings_total + t.bills_total + t.insurance_total

/-- Method `ContractTracker.get_tracked_total`: total excluding spending. -/
def ContractTracker.get_tracked_total (t : ContractTracker) : Int :=
  t.savings_total + t.bills_total + t.insurance_total

/-- Driver loop used by the tests: feed each amount to
`calculate_split` and hand the result to the tracker, propagating any
exception. -/
def processAll (s : RemittanceSplitter) (t : ContractTracker) :
    List Int → Except PyError ContractTracker
  | [] => Except.ok t
  | n :: ns =>
    match s.calculate_split n with
    | Except.error e => Except.error e
    | Except.ok r => processAll s (t.allocate r) ns

/-! ### Helper lemmas -/

/-- Floor division by 100 agrees with Euclidean division, since 100 is
non-negative. -/
theorem fdiv_hundred (a : Int) : Int.fdiv a 100 = a / 100 :=
  Int.fdiv_eq_ediv a (by norm_num)

/-- On a positive amount, `calculate_split` returns the literal record
built from the three floor divisions and the residual. -/
theorem calculate_split_pos (s : RemittanceSplitter) (n : Int) (hn : 0 < n) :
    s.calculate_split n = Except.ok
      ⟨n, Int.fdiv (n * s.config.spending_percent) 100,
        Int.fdiv (n * s.config.savings_percent) 100,
        Int.fdiv (n * s.config.bills_percent) 100,
        n - Int.fdiv (n * s.config.spending_percent) 100
          - Int.fdiv (n * s.config.savings_percent) 100
          - Int.fdiv (n * s.config.bills_percent) 100⟩ := by
  simp [RemittanceSplitter.calculate_split, hn.not_le]

/-- C1: for every SplitConfig whose four non-negative percentages sum
to exactly 100 and every positive amount, `calculate_split` succeeds
and its four allocations are non-negative and sum exactly to the
amount. -/
theorem claim_C1_split_conservation (c : SplitConfig) (n : Int)
    (hval : c.validate = true)
    (hsp : 0 ≤ c.spending_percent) (hsv : 0 ≤ c.savings_percent)
    (hbl : 0 ≤ c.bills_percent) (hin : 0 ≤ c.insurance_percent)
    (hn : 0 < n) :
    ∃ r : AllocationResult,
      RemittanceSplitter.calculate_split ⟨c⟩ n = Except.ok r ∧
      0 ≤ r.spending ∧ 0 ≤ r.savings ∧ 0 ≤ r.bills ∧ 0 ≤ r.insurance ∧
      r.spending + r.savings + r.bills + r.insurance = n := by
  have hsum : c.spending_percent + c.savings_percent +
      c.bills_percent + c.insurance_percent = 100 := by
    simpa [SplitConfig.validate] using hval
  refine ⟨_, calculate_split_pos ⟨c⟩ n hn, ?_, ?_, ?_, ?_, ?_⟩ <;>
    simp only [fdiv_hundred]
  · exact Int.ediv_nonneg (mul_nonneg hn.le hsp) (by norm_num)
  · exact Int.ediv_nonneg (mul_nonneg hn.le hsv) (by norm_num)
  · exact Int.ediv_nonneg (mul_nonneg hn.le hbl) (by norm_num)
  · have hprod : n * c.spending_percent + n * c.savings_percent +
        n * c.bills_percent + n * c.insurance_percent = 100 * n := by
      linear_combination n * hsum
    have hD : 0 ≤ n * c.insurance_percent := mul_nonneg hn.le hin
    omega
  · ring

/-- Witness for C1 at config (40, 30, 20, 10) and amount 7. -/
theorem claim_C1_split_conservation_witness :
    ∃ r : AllocationResult,
      RemittanceSplitter.calculate_split ⟨⟨40, 30, 20, 10⟩⟩ 7 = Except.ok r ∧
      0 ≤ r.spending ∧ 0 ≤ r.savings ∧ 0 ≤ r.bills ∧ 0 ≤ r.insurance ∧
      r.spending + r.savings + r.bills + r.insurance = 7 :=
  claim_C1_split_conservation ⟨40, 30, 20, 10⟩ 7 (by decide) (by decide)
    (by decide) (by decide) (by decide) (by decide)

/-- Processing a list of positive amounts always succeeds and adds
their exact sum to the tracker's grand total. -/
theorem processAll_total (s : RemittanceSplitter) (ns : List Int)
    (hpos : ∀ n ∈ ns, 0 < n) (t : ContractTracker) :
    ∃ u : ContractTracker,
      processAll s t ns = Except.ok u ∧
      u.get_total_allocated = t.get_total_allocated + ns.sum := by
  induction ns generalizing t with
  | nil => exact ⟨t, rfl, by simp⟩
  | cons n ns ih =>
    have hn : 0 < n := hpos n (List.mem_cons_self n ns)
    obtain ⟨u, hu, htot⟩ :=
      ih (fun m hm => hpos m (List.mem_cons_of_mem n hm))
        (t.allocate ⟨n, Int.fdiv (n * s.config.spending_percent) 100,
          Int.fdiv (n * s.config.savings_percent) 100,
          Int.fdiv (n * s.config.bills_percent) 100,
          n - Int.fdiv (n * s.config.spending_percent) 100
            - Int.fdiv (n * s.config.savings_percent) 100
            - Int.fdiv (n * s.config.bills_percent) 100⟩)
    refine ⟨u, ?_, ?_⟩
    · rw [processAll, calculate_split_pos s n hn]
      exact hu
    · rw [htot]
      simp only [ContractTracker.allocate, ContractTracker.get_total_allocated,
        List.sum_cons]
      ring

/-- C2: for every valid SplitConfig and every list of positive amounts,
feeding each `calculate_split` result to a fresh tracker makes
`get_total_allocated` equal exactly the sum of the amounts. -/
theorem claim_C2_cumulative_conservation (c : SplitConfig) (ns : List Int)
    (_hval : c.validate = true) (hpos : ∀ n ∈ ns, 0 < n) :
    ∃ u : ContractTracker,
      processAll ⟨c⟩ ContractTracker.initState ns = Except.ok u ∧
      u.get_total_allocated = ns.sum := by
  obtain ⟨u, hu, htot⟩ := processAll_total ⟨c⟩ ns hpos ContractTracker.initState
  exact ⟨u, hu, by simpa [ContractTracker.initState,
    ContractTracker.get_total_allocated] using htot⟩

/-- Witness for C2 at config (40, 30, 20, 10) and amounts [1, 7, 100]. -/
theorem claim_C2_cumulative_conservation_witness :
    ∃ u : ContractTracker,
      processAll ⟨⟨40, 30, 20, 10⟩⟩ ContractTracker.initState
        [1, 7, 100] = Except.ok u ∧
      u.get_total_allocated = ([1, 7, 100] : List Int).sum :=
  claim_C2_cumulative_conservation ⟨40, 30, 20, 10⟩ [1, 7, 100]
    (by decide) (by decide)

/-- C3: constructing a splitter fails with the config `ValueError` if
and only if the four percentages do not sum to exactly 100; any
configuration summing to 100 is accepted and stored as-is. -/
theorem claim_C3_config_validation (c : SplitConfig) :
    (RemittanceSplitter.init c =
        Except.error (PyError.valueError "Split percentages must sum to 100") ↔
      c.spending_percent + c.savings_percent +
        c.bills_percent + c.insurance_percent ≠ 100) ∧
    (c.spending_percent + c.savings_percent +
        c.bills_percent + c.insurance_percent = 100 →
      RemittanceSplitter.init c = Except.ok ⟨c⟩) := by
  unfold RemittanceSplitter.init SplitConfig.validate
  by_cases h : c.spending_percent + c.savings_percent +
      c.bills_percent + c.insurance_percent = 100 <;> simp [h]

/-- Witness for C3: a sum of 99 is rejected, while a sum of 100 with
individual zero values is accepted. -/
theorem claim_C3_config_validation_witness :
    RemittanceSplitter.init ⟨40, 30, 20, 9⟩ =
      Except.error (PyError.valueError "Split percentages must sum to 100") ∧
    RemittanceSplitter.init ⟨0, 0, 0, 100⟩ = Except.ok ⟨⟨0, 0, 0, 100⟩⟩ :=
  ⟨(claim_C3_config_validation ⟨40, 30, 20, 9⟩).1.mpr (by decide),
    (claim_C3_config_validation ⟨0, 0, 0, 100⟩).2 (by decide)⟩

/-- C4: for every valid SplitConfig, `calculate_split` on a non-positive
amount fails with the amount `ValueError`, on amount 1 it succeeds with
a conserving allocation, and with config (40, 30, 20, 10) amount 1
gives spending = 0, savings = 0, bills = 0, insurance = 1. -/
theorem claim_C4_amount_validation (c : SplitConfig) (m : Int)
    (_hval : c.validate = true) (hm : m ≤ 0) :
    RemittanceSplitter.calculate_split ⟨c⟩ m =
      Except.error (PyError.valueError "Total amount must be positive") ∧
    (∃ r : AllocationResult,
      RemittanceSplitter.calculate_split ⟨c⟩ 1 = Except.ok r ∧
      r.is_consistent = true) ∧
    RemittanceSplitter.calculate_split ⟨⟨40, 30, 20, 10⟩⟩ 1 =
      Except.ok ⟨1, 0, 0, 0, 1⟩ := by
  refine ⟨?_, ⟨_, calculate_split_pos ⟨c⟩ 1 (by norm_num), ?_⟩, rfl⟩
  · simp [RemittanceSplitter.calculate_split, hm]
  · simp only [AllocationResult.is_consistent, AllocationResult.sum_allocations,
      beq_iff_eq]
    ring

/-- Witness for C4 at config (40, 30, 20, 10) and amount 0. -/
theorem claim_C4_amount_validation_witness :
    RemittanceSplitter.calculate_split ⟨⟨40, 30, 20, 10⟩⟩ 0 =
      Except.error (PyError.valueError "Total amount must be positive") ∧
    (∃ r : AllocationResult,
      RemittanceSplitter.calculate_split ⟨⟨40, 30, 20, 10⟩⟩ 1 = Except.ok r ∧
      r.is_consistent = true) ∧
    RemittanceSplitter.calculate_split ⟨⟨40, 30, 20, 10⟩⟩ 1 =
      Except.ok ⟨1, 0, 0, 0, 1⟩ :=
  claim_C4_amount_validation ⟨40, 30, 20, 10⟩ 0 (by decide) (by decide)

/-- C5: for every valid SplitConfig with non-negative percentages and
every positive amount, the insurance allocation exceeds its own floor
share by at least 0 and at most 3 units. -/
theorem claim_C5_residual_bound (c : SplitConfig) (n : Int)
    (hval : c.validate = true)
    (_hsp : 0 ≤ c.spending_percent) (_hsv : 0 ≤ c.savings_percent)
    (_hbl : 0 ≤ c.bills_percent) (_hin : 0 ≤ c.insurance_percent)
    (hn : 0 < n) :
    ∃ r : AllocationResult,
      RemittanceSplitter.calculate_split ⟨c⟩ n = Except.ok r ∧
      0 ≤ r.insurance - Int.fdiv (n * c.insurance_percent) 100 ∧
      r.insurance - Int.fdiv (n * c.insurance_percent) 100 ≤ 3 := by
  have hsum : c.spending_percent + c.savings_percent +
      c.bills_percent + c.insurance_percent = 100 := by
    simpa [SplitConfig.validate] using hval
  have hprod : n * c.spending_percent + n * c.savings_percent +
      n * c.bills_percent + n * c.insurance_percent = 100 * n := by
    linear_combination n * hsum
  refine ⟨_, calculate_split_pos ⟨c⟩ n hn, ?_, ?_⟩ <;>
    simp only [fdiv_hundred] <;> omega

/-- Witness for C5 at config (40, 30, 20, 10) and amount 13. -/
theorem claim_C5_residual_bound_witness :
    ∃ r : AllocationResult,
      RemittanceSplitter.calculate_split ⟨⟨40, 30, 20, 10⟩⟩ 13 = Except.ok r ∧
      0 ≤ r.insurance - Int.fdiv (13 * 10) 100 ∧
      r.insurance - Int.fdiv (13 * 10) 100 ≤ 3 :=
  claim_C5_residual_bound ⟨40, 30, 20, 10⟩ 13 (by decide) (by decide)
    (by decide) (by decide) (by decide) (by decide)

/-- C6: `allocate` with an AllocationResult whose four allocations are
non-negative leaves each of the tracker's four running totals at least
as large as before. -/
theorem claim_C6_bucket_monotonicity (t : ContractTracker) (r : AllocationResult)
    (hsp : 0 ≤ r.spending) (hsv : 0 ≤ r.savings)
    (hbl : 0 ≤ r.bills) (hin : 0 ≤ r.insurance) :
    t.spending_total ≤ (t.allocate r).spending_total ∧
    t.savings_total ≤ (t.allocate r).savings_total ∧
    t.bills_total ≤ (t.allocate r).bills_total ∧
    t.insurance_total ≤ (t.allocate r).insurance_total := by
  simp only [ContractTracker.allocate]
  omega

/-- Witness for C6 at a concrete tracker state and allocation. -/
theorem claim_C6_bucket_monotonicity_witness :
    let t : ContractTracker := ⟨3, 2, 1, 4⟩
    let r : AllocationResult := ⟨10, 4, 3, 2, 1⟩
    t.spending_total ≤ (t.allocate r).spending_total ∧
    t.savings_total ≤ (t.allocate r).savings_total ∧
    t.bills_total ≤ (t.allocate r).bills_total ∧
    t.insurance_total ≤ (t.allocate r).insurance_total :=
  claim_C6_bucket_monotonicity ⟨3, 2, 1, 4⟩ ⟨10, 4, 3, 2, 1⟩
    (by decide) (by decide) (by decide) (by decide)

/-- The 100 amounts of the high-volume test: 5,000 XLM plus i times
100 XLM, in stroops (7 decimals). -/
def highVolumeAmounts : List Int :=
  (List.range 100).map (fun i => 50000000000 + (i : Int) * 1000000000)

set_option maxRecDepth 20000 in
/-- C7: running the 100-call high-volume sequence under split
(40, 30, 20, 10) keeps the tracked (non-spending) total within
`total_remitted / 10000` of `total_remitted * 60 / 100`. -/
theorem claim_C7_high_volume_tolerance :
    ∃ t : ContractTracker,
      processAll ⟨⟨40, 30, 20, 10⟩⟩ ContractTracker.initState
        highVolumeAmounts = Except.ok t ∧
      |t.get_tracked_total - Int.fdiv (highVolumeAmounts.sum * 60) 100| ≤
        Int.fdiv highVolumeAmounts.sum 10000 :=
  ⟨⟨2985000000000, 1990000000000, 995000000000, 3980000000000⟩,
    rfl, by decide⟩

/-- The three amounts of the percentage-maintenance test: 10,000,
20,000 and 15,000 XLM in stroops. -/
def percentAmounts : List Int :=
  [100000000000, 200000000000, 150000000000]

/-- C8: after the three-call sequence under split (40, 30, 20, 10),
each bucket's realized integer percentage of the remitted total is
within 1 of its configured percentage. -/
theorem claim_C8_percentage_maintenance :
    ∃ t : ContractTracker,
      processAll ⟨⟨40, 30, 20, 10⟩⟩ ContractTracker.initState
        percentAmounts = Except.ok t ∧
      |Int.fdiv (t.spending_total * 100) percentAmounts.sum - 40| ≤ 1 ∧
      |Int.fdiv (t.savings_total * 100) percentAmounts.sum - 30| ≤ 1 ∧
      |Int.fdiv (t.bills_total * 100) percentAmounts.sum - 20| ≤ 1 ∧
      |Int.fdiv (t.insurance_total * 100) percentAmounts.sum - 10| ≤ 1 :=
  ⟨⟨135000000000, 90000000000, 45000000000, 180000000000⟩,
    rfl, by decide, by decide, by decide, by decide⟩

/-- C9: `validate` checks only the sum of the percentages, so the
config (150, -50, 0, 0) is accepted by the constructor, and splitting
the amount 2 under it yields a negative savings allocation. -/
theorem claim_C9_negative_percent_accepted :
    SplitConfig.validate ⟨150, -50, 0, 0⟩ = true ∧
    RemittanceSplitter.init ⟨150, -50, 0, 0⟩ =
      Except.ok ⟨⟨150, -50, 0, 0⟩⟩ ∧
    ∃ r : AllocationResult,
      RemittanceSplitter.calculate_split ⟨⟨150, -50, 0, 0⟩⟩ 2 =
        Except.ok r ∧
      r.savings < 0 :=
  ⟨rfl, rfl, ⟨2, 3, -1, 0, 0⟩, by rfl, by decide⟩

/-- C10: both failure modes surface as the same exception type
`ValueError`, distinguished only by their messages. -/
theorem claim_C10_same_exception_type :
    ∃ m₁ m₂ : String,
      RemittanceSplitter.init ⟨40, 30, 20, 9⟩ =
        Except.error (PyError.valueError m₁) ∧
      RemittanceSplitter.calculate_split ⟨⟨40, 30, 20, 10⟩⟩ 0 =
        Except.error (PyError.valueError m₂) ∧
      m₁ ≠ m₂ :=
  ⟨"Split percentages must sum to 100", "Total amount must be positive",
    rfl, rfl, by decide⟩
